import Mathlib

/-!
Verification development for the tegola `provider` package: a pluggable
provider registry (standard vs MVT provider flavors sharing one name space)
together with a slippy tile reference that computes geographic extents.

The registry is embedded shallowly: the Go map `providers map[string]pfns`
becomes an association list wrapped in `Option` (`none` models the nil map,
which Go distinguishes from an empty map), and Go functions that read or
mutate the package-level map become functions taking and returning that
state explicitly.  Initializer functions (`InitFunc`, `MVTInitFunc`) return
the same pair a Go initializer returns: a possibly-nil handle and a
possibly-nil error.  Extent arithmetic is over `ℚ` (Go uses float64; the
claims here concern exact algebraic identities such as zero-buffer
expansion, where the float computation is also exact).
-/

namespace Tegola

/-- Opaque stand-in for `dict.Dicter` config values: the registry never
inspects a config, it only passes it through to initializers. -/
abbrev Config := Nat

/-- Modelled from the spec: a layer descriptor exposed by `Layers()`
(defined in a file of the repository outside the provided slice); the
registry treats it opaquely. -/
abbrev LayerInfo := Nat

/-- Provider type tag (`providerType` in the source): `TypeStd` or `TypeMvt`. -/
inductive providerType where
  | TypeStd
  | TypeMvt
deriving DecidableEq, Repr

/-- The error values produced or passed through by the registry.  The field
layout of `unknownProvider` and `invalidProviderType` is read off the
composite literals in the source (`ErrUnknownProvider{KnownProviders: …,
Name: …}`, `ErrInvalidProviderType{Name: …, Type: …, KnownProviders: …}`);
`custom` stands for any provider-specific error an initializer returns,
which the registry passes through unchanged. -/
inductive Err where
  | nilInitFunc
  | duplicateProvider (name : String)
  | unknownProvider (knownProviders : List String) (name : String)
  | invalidProviderType (name : String) (ptype : providerType)
      (knownProviders : List String)
  | invalidRegisteredProvider (name : String)
  | custom (code : Nat)
deriving DecidableEq, Repr

/-- A standard provider handle (`Tiler` interface).  Only its `Layers()`
result is observable to the code under verification, so the interface is
embedded as that result. -/
structure Tiler where
  layers : Option (List LayerInfo) × Option Err
deriving DecidableEq, Repr

/-- Modelled from the spec: the alternate (MVT) provider handle
(`MVTTiler`, defined outside the provided slice) — like `Tiler`, it exposes
a `Layers()` result. -/
structure MVTTiler where
  layers : Option (List LayerInfo) × Option Err
deriving DecidableEq, Repr

/-- `InitFunc`: a standard initializer, returning a possibly-nil `Tiler`
and a possibly-nil error, exactly as the Go pair `(Tiler, error)`. -/
abbrev InitFunc := Config → Option Tiler × Option Err

/-- Modelled from the spec: `MVTInitFunc` (declared outside the provided
slice) is the alternate-flavor counterpart of `InitFunc`. -/
abbrev MVTInitFunc := Config → Option MVTTiler × Option Err

/-- `CleanupFunc` is an opaque side-effecting hook; only its presence and
identity are observable to the registry, so it is embedded as a token. -/
abbrev CleanupFunc := Nat

/-- A registry entry (`pfns` in the source): at most one of `init` /
`mvtInit` is meant to be populated, plus an optional cleanup hook. -/
structure pfns where
  init : Option InitFunc
  mvtInit : Option MVTInitFunc
  cleanup : Option CleanupFunc

/-- The registry contents: name → entry association list (Go map iteration
order is unspecified; insertion order is as good as any). -/
abbrev Registry := List (String × pfns)

/-- The package-level variable `providers map[string]pfns`: `none` is the
nil map it starts as, `some r` a made map with contents `r`. -/
abbrev ProvidersState := Option Registry

/-- The filter selector (`providerFilter`): only the four named constants
are ever passed (any other bitmask value falls into the switch default and
selects nothing). -/
inductive providerFilter where
  | ProviderFilterNone
  | ProviderFilterStd
  | ProviderFilterMVT
  | ProviderFilterAll
deriving DecidableEq, Repr

/-- `Register`: rejects a nil initializer, lazily makes the map, rejects a
duplicate name, otherwise stores a standard-flavor entry.  Returns the new
state of `providers` along with the error. -/
def Register (providers : ProvidersState) (name : String)
    (init : Option InitFunc) (cleanup : Option CleanupFunc) :
    ProvidersState × Option Err :=
  match init with
  | none => (providers, some Err.nilInitFunc)
  | some i =>
    let r := providers.getD []
    match r.lookup name with
    | some _ => (some r, some (Err.duplicateProvider name))
    | none => (some (r ++ [(name, ⟨some i, none, cleanup⟩)]), none)

/-- `MVTRegister`: identical shape to `Register`, storing an mvt-flavor
entry. -/
def MVTRegister (providers : ProvidersState) (name : String)
    (init : Option MVTInitFunc) (cleanup : Option CleanupFunc) :
    ProvidersState × Option Err :=
  match init with
  | none => (providers, some Err.nilInitFunc)
  | some i =>
    let r := providers.getD []
    match r.lookup name with
    | some _ => (some r, some (Err.duplicateProvider name))
    | none => (some (r ++ [(name, ⟨none, some i, cleanup⟩)]), none)

/-- `Drivers`: names of registered providers matching the filter; nil map
or the `none` filter yield the empty list, otherwise the loop keeps a name
when the switch does not `continue` past it. -/
def Drivers (providers : ProvidersState) (FilterType : providerFilter) :
    List String :=
  match providers with
  | none => []
  | some r =>
    match FilterType with
    | providerFilter.ProviderFilterNone => []
    | providerFilter.ProviderFilterAll => r.map Prod.fst
    | providerFilter.ProviderFilterMVT =>
        (r.filter (fun kv => kv.2.mvtInit.isSome)).map Prod.fst
    | providerFilter.ProviderFilterStd =>
        (r.filter (fun kv => kv.2.init.isSome)).map Prod.fst

/-- The union result (`TilerUnion`): a standard handle and an mvt handle,
at most one meant to be populated. -/
structure TilerUnion where
  Std : Option Tiler
  Mvt : Option MVTTiler
deriving DecidableEq, Repr

/-- `TilerUnion.Layers`: delegate to `Std` first, then `Mvt`, else report
`ErrNilInitFunc`. -/
def TilerUnion.Layers (tu : TilerUnion) : Option (List LayerInfo) × Option Err :=
  match tu.Std with
  | some t => t.layers
  | none =>
    match tu.Mvt with
    | some m => m.layers
    | none => (none, some Err.nilInitFunc)

/-- The empty string used for the zero value of `ErrUnknownProvider.Name`. -/
def emptyName : String := ""

/-- `For`: untyped lookup.  Captures `Drivers(all)` first, reports an
unknown provider on a nil map or a missing name, otherwise runs whichever
initializer is populated (standard first) and passes its handle and error
through; an entry with neither initializer is defended against. -/
def For (providers : ProvidersState) (name : String) (config : Config) :
    TilerUnion × Option Err :=
  let driversList := Drivers providers providerFilter.ProviderFilterAll
  match providers with
  | none => (⟨none, none⟩, some (Err.unknownProvider driversList emptyName))
  | some r =>
    match r.lookup name with
    | none => (⟨none, none⟩, some (Err.unknownProvider driversList name))
    | some p =>
      match p.init with
      | some i =>
        let res := i config
        (⟨res.1, none⟩, res.2)
      | none =>
        match p.mvtInit with
        | some m =>
          let res := m config
          (⟨none, res.1⟩, res.2)
        | none => (⟨none, none⟩, some (Err.invalidRegisteredProvider name))

/-- `STDFor`: typed standard lookup.  The unknown-provider error is built
up front with `Drivers(std)` as its known list; a present entry whose
standard initializer is nil is a flavor mismatch. -/
def STDFor (providers : ProvidersState) (name : String) (config : Config) :
    Option Tiler × Option Err :=
  let e := Err.unknownProvider
    (Drivers providers providerFilter.ProviderFilterStd) emptyName
  match providers with
  | none => (none, some e)
  | some r =>
    match r.lookup name with
    | none =>
        (none, some (Err.unknownProvider
          (Drivers providers providerFilter.ProviderFilterStd) name))
    | some p =>
      match p.init with
      | none =>
          (none, some (Err.invalidProviderType name providerType.TypeStd
            (Drivers providers providerFilter.ProviderFilterStd)))
      | some i => i config

/-- `MVTFor`: typed mvt lookup.  A nil map yields a bare
`ErrUnknownProvider{}` (empty known list and name); a present entry whose
mvt initializer is nil is a flavor mismatch. -/
def MVTFor (providers : ProvidersState) (name : String) (config : Config) :
    Option MVTTiler × Option Err :=
  match providers with
  | none => (none, some (Err.unknownProvider [] emptyName))
  | some r =>
    match r.lookup name with
    | none =>
        (none, some (Err.unknownProvider
          (Drivers providers providerFilter.ProviderFilterMVT) name))
    | some p =>
      match p.mvtInit with
      | none =>
          (none, some (Err.invalidProviderType name providerType.TypeMvt
            (Drivers providers providerFilter.ProviderFilterMVT)))
      | some m => m config

/-- `Cleanup`: invokes every non-nil cleanup hook.  The hooks are opaque
tokens here, so the observable behavior is the collection of hooks invoked;
the registry itself is not modified. -/
def Cleanup (providers : ProvidersState) : List CleanupFunc :=
  (providers.getD []).filterMap (fun kv => kv.2.cleanup)

/-! ## Tile reference and extent math

`tile_t` and its methods are in the provided slice; the slippy helpers it
calls (`Extent3857`, `ExpandBy`, `Pixels2Webs`) live in the external
`go-spatial/geom` collaborator and are modelled from the spec's contract
for that collaborator (zoom/x/y → planar extent of the fixed projection on
a power-of-two grid; pixel → projected-unit conversion with scale
∝ 1 / 2^zoom; `ExpandBy` expands symmetrically on all four sides). -/

/-- An axis-aligned bounding box in projected coordinates (`geom.Extent`). -/
structure GeomExtent where
  minX : ℚ
  minY : ℚ
  maxX : ℚ
  maxY : ℚ
deriving DecidableEq, Repr

/-- Modelled from the spec: half-width of the web-mercator world square
(the fixed global-coverage projection's full-world extent is
`[-webMercatorMax, webMercatorMax]²`). -/
def webMercatorMax : ℚ := 20037508342789244 / 1000000000

/-- Side length of one tile, in projected units, at zoom `z`: the world
span divided by `2^z` (power-of-two tile pyramid). -/
def tileSpan (z : Nat) : ℚ := 2 * webMercatorMax / 2 ^ z

/-- Modelled from the spec: `slippy.Tile.Extent3857` — the planar extent of
tile `(z, x, y)` in the fixed projection, a uniform power-of-two grid over
the world square (y counts down from the top edge). -/
def Extent3857 (z x y : Nat) : GeomExtent where
  minX := -webMercatorMax + x * tileSpan z
  minY := webMercatorMax - (y + 1) * tileSpan z
  maxX := -webMercatorMax + (x + 1) * tileSpan z
  maxY := webMercatorMax - y * tileSpan z

/-- Modelled from the spec: `geom.Extent.ExpandBy` — expand outward on all
four sides by `d` projected units. -/
def ExpandBy (e : GeomExtent) (d : ℚ) : GeomExtent where
  minX := e.minX - d
  minY := e.minY - d
  maxX := e.maxX + d
  maxY := e.maxY + d

/-- Modelled from the spec: `slippy.Pixels2Webs` — convert a pixel count to
projected units at zoom `z` (256 pixels per tile side, so the scale halves
per zoom increment). -/
def Pixels2Webs (z p : Nat) : ℚ := p * (tileSpan z / 256)

/-- `tile_t`: a slippy tile coordinate plus a buffer width in pixels. -/
structure tile_t where
  Z : Nat
  X : Nat
  Y : Nat
  buffer : Nat
deriving DecidableEq, Repr

/-- `NewTile`: builds the tile value; the `srid` argument is accepted and
dropped, exactly as in the source. -/
def NewTile (z x y buf srid : Nat) : tile_t :=
  { Z := z, X := x, Y := y, buffer := buf }

/-- `tile_t.ZXY`: the coordinate triple unchanged from construction. -/
def tile_t.ZXY (tile : tile_t) : Nat × Nat × Nat := (tile.Z, tile.X, tile.Y)

/-- `tile_t.Extent`: the unbuffered extent, always paired with the fixed
projection identifier 3857. -/
def tile_t.Extent (tile : tile_t) : GeomExtent × Nat :=
  (Extent3857 tile.Z tile.X tile.Y, 3857)

/-- `tile_t.BufferedExtent`: the extent expanded by the buffer converted to
projected units at this tile's zoom, paired with the same fixed 3857. -/
def tile_t.BufferedExtent (tile : tile_t) : GeomExtent × Nat :=
  (ExpandBy (Extent3857 tile.Z tile.X tile.Y) (Pixels2Webs tile.Z tile.buffer),
    3857)

/-! ## Operation traces over the registry

The package API is closed over by an operation type so that invariants can
be stated for every state reachable from the initial nil map.  Only
`Register` and `MVTRegister` write the package-level map; the lookup,
enumeration and cleanup calls read it. -/

/-- One call to the package API. -/
inductive Op where
  | register (name : String) (init : Option InitFunc)
      (cleanup : Option CleanupFunc)
  | mvtRegister (name : String) (init : Option MVTInitFunc)
      (cleanup : Option CleanupFunc)
  | drivers (f : providerFilter)
  | opFor (name : String) (config : Config)
  | stdFor (name : String) (config : Config)
  | mvtFor (name : String) (config : Config)
  | cleanupAll

/-- Effect of one call on the package-level `providers` map. -/
def step (providers : ProvidersState) : Op → ProvidersState
  | Op.register n i c => (Register providers n i c).1
  | Op.mvtRegister n i c => (MVTRegister providers n i c).1
  | Op.drivers _ => providers
  | Op.opFor _ _ => providers
  | Op.stdFor _ _ => providers
  | Op.mvtFor _ _ => providers
  | Op.cleanupAll => providers

/-- State of `providers` after a sequence of calls, starting from the
initial nil map. -/
def run (ops : List Op) : ProvidersState := ops.foldl step none

/-- An entry has exactly one of its two initializers populated. -/
def ExactlyOneInit (p : pfns) : Prop :=
  (p.init.isSome ∧ p.mvtInit = none) ∨ (p.init = none ∧ p.mvtInit.isSome)

/-- Well-formedness of the registry state: no duplicate names, and every
entry is exclusively of one flavor. -/
def RegInv (providers : ProvidersState) : Prop :=
  ((providers.getD []).map Prod.fst).Nodup ∧
    ∀ kv ∈ providers.getD [], ExactlyOneInit kv.2

theorem lookup_eq_none_iff {r : Registry} {name : String} :
    r.lookup name = none ↔ ∀ kv ∈ r, kv.1 ≠ name := by
  induction r with
  | nil => simp
  | cons hd tl ih =>
    rcases hd with ⟨k, v⟩
    by_cases h : name = k
    · subst h
      simp [List.lookup_cons]
    · simp only [List.lookup_cons, beq_false_of_ne h, cond_false, ih,
        List.mem_cons, ne_eq]
      constructor
      · rintro hl kv (rfl | hkv)
        · simpa [eq_comm] using h
        · exact hl kv hkv
      · intro hall kv hkv
        exact hall kv (Or.inr hkv)

theorem regInv_step (providers : ProvidersState) (op : Op)
    (h : RegInv providers) : RegInv (step providers op) := by
  obtain ⟨hnd, hone⟩ := h
  cases op with
  | register n i c =>
    cases i with
    | none => exact ⟨hnd, hone⟩
    | some f =>
      simp only [step, Register]
      cases hl : (providers.getD []).lookup n with
      | some p => exact ⟨hnd, hone⟩
      | none =>
        refine ⟨?_, ?_⟩
        · simp only [Option.getD_some, List.map_append, List.map_cons,
            List.map_nil]
          rw [List.nodup_append]
          refine ⟨hnd, List.nodup_singleton n, ?_⟩
          intro a ha hb
          simp only [List.mem_singleton] at hb
          subst hb
          obtain ⟨kv, hkv, rfl⟩ := List.mem_map.mp ha
          exact (lookup_eq_none_iff.mp hl kv hkv) rfl
        · intro kv hkv
          simp only [Option.getD_some, List.mem_append,
            List.mem_singleton] at hkv
          rcases hkv with hkv | rfl
          · exact hone kv hkv
          · exact Or.inl ⟨rfl, rfl⟩
  | mvtRegister n i c =>
    cases i with
    | none => exact ⟨hnd, hone⟩
    | some f =>
      simp only [step, MVTRegister]
      cases hl : (providers.getD []).lookup n with
      | some p => exact ⟨hnd, hone⟩
      | none =>
        refine ⟨?_, ?_⟩
        · simp only [Option.getD_some, List.map_append, List.map_cons,
            List.map_nil]
          rw [List.nodup_append]
          refine ⟨hnd, List.nodup_singleton n, ?_⟩
          intro a ha hb
          simp only [List.mem_singleton] at hb
          subst hb
          obtain ⟨kv, hkv, rfl⟩ := List.mem_map.mp ha
          exact (lookup_eq_none_iff.mp hl kv hkv) rfl
        · intro kv hkv
          simp only [Option.getD_some, List.mem_append,
            List.mem_singleton] at hkv
          rcases hkv with hkv | rfl
          · exact hone kv hkv
          · exact Or.inr ⟨rfl, rfl⟩
  | drivers f => exact ⟨hnd, hone⟩
  | opFor n cfg => exact ⟨hnd, hone⟩
  | stdFor n cfg => exact ⟨hnd, hone⟩
  | mvtFor n cfg => exact ⟨hnd, hone⟩
  | cleanupAll => exact ⟨hnd, hone⟩

theorem regInv_foldl (ops : List Op) :
    ∀ providers, RegInv providers → RegInv (ops.foldl step providers) := by
  induction ops with
  | nil => intro providers h; exact h
  | cons op rest ih =>
    intro providers h
    exact ih (step providers op) (regInv_step providers op h)

theorem regInv_run (ops : List Op) : RegInv (run ops) :=
  regInv_foldl ops none ⟨List.nodup_nil, by simp⟩

/-- Keys-nodup registries bind each name to at most one entry. -/
theorem entry_eq_of_nodup_keys {r : Registry}
    (hnd : (r.map Prod.fst).Nodup) {kv kv' : String × pfns}
    (h : kv ∈ r) (h' : kv' ∈ r) (hk : kv.1 = kv'.1) : kv = kv' :=
  List.inj_on_of_nodup_map hnd h h' hk

/-! ## Concrete fixtures used by witnesses and counterexamples -/

/-- A concrete provider name. -/
def demoName : String := "demo"

/-- A concrete config token. -/
def cfg0 : Config := 0

/-- A concrete standard handle. -/
def demoTiler : Tiler := ⟨(some [], none)⟩

/-- A concrete mvt handle. -/
def demoMVTTiler : MVTTiler := ⟨(some [], none)⟩

/-- A standard initializer that always succeeds. -/
def stdInit0 : InitFunc := fun _ => (some demoTiler, none)

/-- An mvt initializer that always succeeds. -/
def mvtInit0 : MVTInitFunc := fun _ => (some demoMVTTiler, none)

/-- A standard initializer that returns both a handle and an error, as a Go
initializer is free to do. -/
def badInit : InitFunc := fun _ => (some demoTiler, some (Err.custom 7))

/-- Registry holding one standard-flavor entry. -/
def stdReg : ProvidersState := some [(demoName, ⟨some stdInit0, none, none⟩)]

/-- Registry holding one mvt-flavor entry. -/
def mvtReg : ProvidersState := some [(demoName, ⟨none, some mvtInit0, none⟩)]

/-- Registry whose standard entry's initializer returns handle and error
together. -/
def badReg : ProvidersState := some [(demoName, ⟨some badInit, none, none⟩)]

/-! ## Claim theorems -/

/-- C1: for every name and config, `STDFor` and `MVTFor` fail with an
unknown-provider error when the name is absent, fail with an
invalid-provider-type error carrying the requested flavor and the list of
registered names of that flavor when the name is present under the other
flavor, and otherwise return the populated initializer's result and error
unchanged. -/
theorem c1_typed_lookups (providers : ProvidersState) (name : String)
    (config : Config) :
    ((providers.getD []).lookup name = none →
      (∃ ks n, STDFor providers name config =
        (none, some (Err.unknownProvider ks n))) ∧
      (∃ ks n, MVTFor providers name config =
        (none, some (Err.unknownProvider ks n)))) ∧
    (∀ p, (providers.getD []).lookup name = some p → p.init = none →
      p.mvtInit.isSome →
      STDFor providers name config =
        (none, some (Err.invalidProviderType name providerType.TypeStd
          (Drivers providers providerFilter.ProviderFilterStd)))) ∧
    (∀ p, (providers.getD []).lookup name = some p → p.mvtInit = none →
      p.init.isSome →
      MVTFor providers name config =
        (none, some (Err.invalidProviderType name providerType.TypeMvt
          (Drivers providers providerFilter.ProviderFilterMVT)))) ∧
    (∀ p i, (providers.getD []).lookup name = some p → p.init = some i →
      STDFor providers name config = i config) ∧
    (∀ p m, (providers.getD []).lookup name = some p → p.mvtInit = some m →
      MVTFor providers name config = m config) := by
  cases providers with
  | none =>
    refine ⟨fun _ => ⟨⟨_, _, rfl⟩, ⟨_, _, rfl⟩⟩, ?_, ?_, ?_, ?_⟩
    · intro p hp; simp at hp
    · intro p hp; simp at hp
    · intro p i hp; simp at hp
    · intro p m hp; simp at hp
  | some r =>
    cases hl : r.lookup name with
    | none =>
      refine ⟨fun _ =>
        ⟨⟨Drivers (some r) providerFilter.ProviderFilterStd, name, ?_⟩,
          ⟨Drivers (some r) providerFilter.ProviderFilterMVT, name, ?_⟩⟩,
        ?_, ?_, ?_, ?_⟩
      · simp [STDFor, hl]
      · simp [MVTFor, hl]
      · intro p hp
        simp only [Option.getD_some, hl] at hp
        cases hp
      · intro p hp
        simp only [Option.getD_some, hl] at hp
        cases hp
      · intro p i hp
        simp only [Option.getD_some, hl] at hp
        cases hp
      · intro p m hp
        simp only [Option.getD_some, hl] at hp
        cases hp
    | some p0 =>
      refine ⟨?_, ?_, ?_, ?_, ?_⟩
      · intro hn
        simp only [Option.getD_some, hl] at hn
        cases hn
      · intro p hp h1 _
        simp only [Option.getD_some, hl, Option.some_inj] at hp
        subst hp
        simp [STDFor, hl, h1]
      · intro p hp h1 _
        simp only [Option.getD_some, hl, Option.some_inj] at hp
        subst hp
        simp [MVTFor, hl, h1]
      · intro p i hp hi
        simp only [Option.getD_some, hl, Option.some_inj] at hp
        subst hp
        simp [STDFor, hl, hi]
      · intro p m hp hm
        simp only [Option.getD_some, hl, Option.some_inj] at hp
        subst hp
        simp [MVTFor, hl, hm]

/-- Witness for C1: on a registry whose only entry is mvt-flavored,
`STDFor` reports the flavor mismatch naming the standard flavor. -/
theorem c1_typed_lookups_witness :
    STDFor mvtReg demoName cfg0 =
      (none, some (Err.invalidProviderType demoName providerType.TypeStd
        (Drivers mvtReg providerFilter.ProviderFilterStd))) :=
  (c1_typed_lookups mvtReg demoName cfg0).2.1 ⟨none, some mvtInit0, none⟩
    rfl rfl rfl

/-- C2: `For` on an absent name fails with an unknown-provider error whose
known-names list is `Drivers(all)` at call time. -/
theorem c2_for_unknown_provider (providers : ProvidersState) (name : String)
    (config : Config) (h : (providers.getD []).lookup name = none) :
    ∃ n, For providers name config =
      (⟨none, none⟩, some (Err.unknownProvider
        (Drivers providers providerFilter.ProviderFilterAll) n)) := by
  cases providers with
  | none => exact ⟨emptyName, rfl⟩
  | some r =>
    simp only [Option.getD_some] at h
    exact ⟨name, by simp [For, h]⟩

/-- Witness for C2: looking up a name in the initial nil registry. -/
theorem c2_for_unknown_provider_witness :
    ∃ n, For none demoName cfg0 =
      (⟨none, none⟩, some (Err.unknownProvider
        (Drivers none providerFilter.ProviderFilterAll) n)) :=
  c2_for_unknown_provider none demoName cfg0 rfl

/-- C3: in every state reachable from the initial nil map by any sequence
of API calls, every registry entry has exactly one of its two initializers
populated. -/
theorem c3_reachable_entries_exclusive (ops : List Op) :
    ∀ kv ∈ (run ops).getD [], ExactlyOneInit kv.2 :=
  (regInv_run ops).2

/-- Witness for C3: the entry created by one standard registration. -/
theorem c3_reachable_entries_exclusive_witness :
    ExactlyOneInit
      (Prod.snd (demoName, (⟨some stdInit0, none, none⟩ : pfns))) :=
  c3_reachable_entries_exclusive [Op.register demoName (some stdInit0) none]
    (demoName, ⟨some stdInit0, none, none⟩) (List.mem_singleton.mpr rfl)

/-- C4: re-registering a present name through either path with a non-nil
initializer fails with the duplicate-name error and leaves the registry —
in particular the first registration's entry — unchanged. -/
theorem c4_duplicate_registration (providers : ProvidersState)
    (name : String) (h : ((providers.getD []).lookup name).isSome) :
    (∀ i c, Register providers name (some i) c =
      (providers, some (Err.duplicateProvider name))) ∧
    (∀ m c, MVTRegister providers name (some m) c =
      (providers, some (Err.duplicateProvider name))) := by
  cases providers with
  | none => simp at h
  | some r =>
    simp only [Option.getD_some] at h
    obtain ⟨p, hp⟩ := Option.isSome_iff_exists.mp h
    exact ⟨fun i c => by simp [Register, hp], fun m c => by simp [MVTRegister, hp]⟩

/-- Witness for C4: registering the already-present name again. -/
theorem c4_duplicate_registration_witness :
    Register stdReg demoName (some stdInit0) none =
      (stdReg, some (Err.duplicateProvider demoName)) :=
  (c4_duplicate_registration stdReg demoName rfl).1 stdInit0 none

/-- C5: `Register` and `MVTRegister` with a nil initializer fail with the
nil-initializer error and do not change the registry at all. -/
theorem c5_nil_initializer (providers : ProvidersState) (name : String)
    (c : Option CleanupFunc) :
    Register providers name none c = (providers, some Err.nilInitFunc) ∧
    MVTRegister providers name none c = (providers, some Err.nilInitFunc) :=
  ⟨rfl, rfl⟩

/-- C6: `Drivers(none)` is empty; `Drivers(all)` is every registered name
exactly once; `Drivers(standard)` / `Drivers(alternate)` are exactly the
names whose entry has that flavor's initializer populated; a name whose
entry is exclusively one flavor appears in that flavor's list and not in
the other's. -/
theorem c6_drivers_filters (providers : ProvidersState)
    (hnd : ((providers.getD []).map Prod.fst).Nodup) :
    Drivers providers providerFilter.ProviderFilterNone = [] ∧
    Drivers providers providerFilter.ProviderFilterAll =
      (providers.getD []).map Prod.fst ∧
    (∀ name, name ∈ (providers.getD []).map Prod.fst →
      (Drivers providers providerFilter.ProviderFilterAll).count name = 1) ∧
    (∀ name, name ∈ Drivers providers providerFilter.ProviderFilterStd ↔
      ∃ kv ∈ providers.getD [], kv.1 = name ∧ kv.2.init.isSome) ∧
    (∀ name, name ∈ Drivers providers providerFilter.ProviderFilterMVT ↔
      ∃ kv ∈ providers.getD [], kv.1 = name ∧ kv.2.mvtInit.isSome) ∧
    (∀ kv ∈ providers.getD [],
      (kv.2.init.isSome → kv.2.mvtInit = none →
        kv.1 ∈ Drivers providers providerFilter.ProviderFilterStd ∧
        kv.1 ∉ Drivers providers providerFilter.ProviderFilterMVT) ∧
      (kv.2.mvtInit.isSome → kv.2.init = none →
        kv.1 ∈ Drivers providers providerFilter.ProviderFilterMVT ∧
        kv.1 ∉ Drivers providers providerFilter.ProviderFilterStd)) := by
  have hstd : ∀ name,
      name ∈ Drivers providers providerFilter.ProviderFilterStd ↔
      ∃ kv ∈ providers.getD [], kv.1 = name ∧ kv.2.init.isSome := by
    intro name
    cases providers with
    | none => simp [Drivers]
    | some r =>
      simp only [Drivers, Option.getD_some, List.mem_map, List.mem_filter]
      constructor
      · rintro ⟨kv, ⟨hkv, hi⟩, rfl⟩
        exact ⟨kv, hkv, rfl, hi⟩
      · rintro ⟨kv, hkv, rfl, hi⟩
        exact ⟨kv, ⟨hkv, hi⟩, rfl⟩
  have hmvt : ∀ name,
      name ∈ Drivers providers providerFilter.ProviderFilterMVT ↔
      ∃ kv ∈ providers.getD [], kv.1 = name ∧ kv.2.mvtInit.isSome := by
    intro name
    cases providers with
    | none => simp [Drivers]
    | some r =>
      simp only [Drivers, Option.getD_some, List.mem_map, List.mem_filter]
      constructor
      · rintro ⟨kv, ⟨hkv, hi⟩, rfl⟩
        exact ⟨kv, hkv, rfl, hi⟩
      · rintro ⟨kv, hkv, rfl, hi⟩
        exact ⟨kv, ⟨hkv, hi⟩, rfl⟩
  have hall : Drivers providers providerFilter.ProviderFilterAll =
      (providers.getD []).map Prod.fst := by
    cases providers with
    | none => rfl
    | some r => rfl
  have hnone : Drivers providers providerFilter.ProviderFilterNone = [] := by
    cases providers with
    | none => rfl
    | some r => rfl
  refine ⟨hnone, hall, ?_, hstd, hmvt, ?_⟩
  · intro name hmem
    rw [hall]
    exact List.count_eq_one_of_mem hnd hmem
  · intro kv hkv
    constructor
    · intro hi hm
      refine ⟨(hstd kv.1).mpr ⟨kv, hkv, rfl, hi⟩, ?_⟩
      intro hin
      obtain ⟨kv', hkv', hk', hm'⟩ := (hmvt kv.1).mp hin
      have : kv' = kv := entry_eq_of_nodup_keys hnd hkv' hkv hk'
      subst this
      rw [hm] at hm'
      cases hm'
    · intro hm hi
      refine ⟨(hmvt kv.1).mpr ⟨kv, hkv, rfl, hm⟩, ?_⟩
      intro hin
      obtain ⟨kv', hkv', hk', hi'⟩ := (hstd kv.1).mp hin
      have : kv' = kv := entry_eq_of_nodup_keys hnd hkv' hkv hk'
      subst this
      rw [hi] at hi'
      cases hi'

/-- Witness for C6: the one-entry standard registry. -/
theorem c6_drivers_filters_witness :
    Drivers stdReg providerFilter.ProviderFilterNone = [] :=
  (c6_drivers_filters stdReg (List.nodup_singleton demoName)).1

/-- Counterexample for C7: the claim also asserts that whenever `For`
returns an error, both union fields are empty; but an initializer may
return a handle together with an error, and `For` passes both through, so
the returned union has its `Std` field populated alongside the error. -/
theorem c7_counterexample :
    ¬ ((For badReg demoName cfg0).2.isSome →
      (For badReg demoName cfg0).1 = ⟨none, none⟩) :=
  fun h => absurd (h rfl) (by decide)

/-- C7 (amended): the union returned by `For` never has both fields
populated; on a lookup failure (absent name or malformed entry) both
fields are empty and an error is reported; when an initializer runs, the
union carries exactly the handle it returned — together with its error, if
it returned both. -/
theorem c7_union_result (providers : ProvidersState) (name : String)
    (config : Config) :
    ((For providers name config).1.Std = none ∨
      (For providers name config).1.Mvt = none) ∧
    ((providers.getD []).lookup name = none →
      (For providers name config).1 = ⟨none, none⟩ ∧
      (For providers name config).2.isSome) ∧
    (∀ p, (providers.getD []).lookup name = some p → p.init = none →
      p.mvtInit = none →
      (For providers name config).1 = ⟨none, none⟩ ∧
      (For providers name config).2.isSome) ∧
    (∀ p i, (providers.getD []).lookup name = some p → p.init = some i →
      For providers name config = (⟨(i config).1, none⟩, (i config).2)) ∧
    (∀ p m, (providers.getD []).lookup name = some p → p.init = none →
      p.mvtInit = some m →
      For providers name config = (⟨none, (m config).1⟩, (m config).2)) := by
  cases providers with
  | none =>
    refine ⟨Or.inl rfl, fun _ => ⟨rfl, rfl⟩, ?_, ?_, ?_⟩
    · intro p hp; simp at hp
    · intro p i hp; simp at hp
    · intro p m hp; simp at hp
  | some r =>
    cases hl : r.lookup name with
    | none =>
      refine ⟨?_, fun _ => ?_, ?_, ?_, ?_⟩
      · simp [For, hl]
      · simp [For, hl]
      · intro p hp
        simp only [Option.getD_some, hl] at hp
        cases hp
      · intro p i hp
        simp only [Option.getD_some, hl] at hp
        cases hp
      · intro p m hp
        simp only [Option.getD_some, hl] at hp
        cases hp
    | some p0 =>
      have hmain : ∀ q, r.lookup name = some q →
          For (some r) name config =
            (match q.init with
            | some i => (⟨(i config).1, none⟩, (i config).2)
            | none =>
              match q.mvtInit with
              | some m => (⟨none, (m config).1⟩, (m config).2)
              | none =>
                (⟨none, none⟩,
                  some (Err.invalidRegisteredProvider name))) := by
        intro q hq
        cases hi : q.init with
        | some i => simp [For, hq, hi]
        | none =>
          cases hm : q.mvtInit with
          | some m => simp [For, hq, hi, hm]
          | none => simp [For, hq, hi, hm]
      refine ⟨?_, ?_, ?_, ?_, ?_⟩
      · rw [hmain p0 hl]
        cases hi : p0.init with
        | some i => exact Or.inr rfl
        | none =>
          cases hm : p0.mvtInit with
          | some m => exact Or.inl rfl
          | none => exact Or.inl rfl
      · intro hn
        simp only [Option.getD_some, hl] at hn
        cases hn
      · intro p hp hi hm
        simp only [Option.getD_some, hl, Option.some_inj] at hp
        subst hp
        rw [hmain p0 hl, hi, hm]
        exact ⟨rfl, rfl⟩
      · intro p i hp hi
        simp only [Option.getD_some, hl, Option.some_inj] at hp
        subst hp
        rw [hmain p0 hl, hi]
      · intro p m hp hi hm
        simp only [Option.getD_some, hl, Option.some_inj] at hp
        subst hp
        rw [hmain p0 hl, hi, hm]

/-- Witness for C7 (amended): `For` on an absent name returns the empty
union. -/
theorem c7_union_result_witness :
    (For (some []) demoName cfg0).1 = ⟨none, none⟩ ∧
    (For (some []) demoName cfg0).2.isSome :=
  (c7_union_result (some []) demoName cfg0).2.1 rfl

/-- C8: with buffer width 0, the buffered extent equals the plain extent
(expansion by a zero buffer is the identity). -/
theorem c8_zero_buffer (tile : tile_t) (h : tile.buffer = 0) :
    tile.BufferedExtent = tile.Extent := by
  simp [tile_t.BufferedExtent, tile_t.Extent, ExpandBy, Pixels2Webs, h]

/-- Witness for C8: a concrete zoom-2 tile with zero buffer. -/
theorem c8_zero_buffer_witness :
    (NewTile 2 1 1 0 4326).BufferedExtent = (NewTile 2 1 1 0 4326).Extent :=
  c8_zero_buffer (NewTile 2 1 1 0 4326) rfl

/-- C9: `NewTile` ignores its `srid` argument entirely — tiles built with
different requested srids are the same value — and both `Extent` and
`BufferedExtent` always report the fixed projection identifier 3857. -/
theorem c9_srid_ignored (z x y buf srid1 srid2 : Nat) :
    NewTile z x y buf srid1 = NewTile z x y buf srid2 ∧
    (NewTile z x y buf srid1).Extent.2 = 3857 ∧
    (NewTile z x y buf srid1).BufferedExtent.2 = 3857 :=
  ⟨rfl, rfl, rfl⟩

/-- C10: `TilerUnion.Layers` delegates to the standard handle when `Std`
is populated (whatever `Mvt` holds), otherwise to the mvt handle when
`Mvt` is populated, and returns the nil-initializer error when both are
empty. -/
theorem c10_union_layers (tu : TilerUnion) :
    (∀ t, tu.Std = some t → tu.Layers = t.layers) ∧
    (tu.Std = none → ∀ m, tu.Mvt = some m → tu.Layers = m.layers) ∧
    (tu.Std = none → tu.Mvt = none →
      tu.Layers = (none, some Err.nilInitFunc)) := by
  obtain ⟨s, m⟩ := tu
  refine ⟨?_, ?_, ?_⟩
  · rintro t rfl
    rfl
  · rintro rfl m' rfl
    rfl
  · rintro rfl rfl
    rfl

/-- Witness for C10: the empty union reports the nil-initializer error. -/
theorem c10_union_layers_witness :
    TilerUnion.Layers ⟨none, none⟩ = (none, some Err.nilInitFunc) :=
  (c10_union_layers ⟨none, none⟩).2.2 rfl rfl

end Tegola
